import Mathlib

/-!
# Verification of `serverctx` (Go)

Shallow embedding of the `serverctx` package: `Run` / `RunTLS` (file
`serverctx.go`) and `Run` / `RunTLS` / `Serve` / `ServeTLS` (the second,
unnamed copy of the file, modelled in namespace `Part000`).

The Go code launches the server's accept loop in a goroutine which sends the
loop's terminal `error` on a result channel, then `select`s between
`ctx.Done()` and a receive on that channel.  If the context wins, it derives
`context.WithTimeout(context.Background(), timeout)` and returns
`s.Shutdown(ctx)`; otherwise it returns the accept loop's error verbatim.

We model time as `Int` (absolute instants); each invocation carries the
invocation instant `t0`, the instant the accept call would return
(`Sched.acceptReturnsAt`, `none` if it never returns), and the instant the
caller's context fires (`Context.doneAt`, `none` if never).  Go's `select`
picks the case that becomes ready first; when both cases are ready
simultaneously the Go runtime chooses pseudo-randomly, which we model by the
scheduler bit `Sched.tieChoice`.
-/

/-- A non-nil Go `error` value.  `errServerClosed` is `http.ErrServerClosed`,
the sentinel returned by the accept methods after a graceful `Shutdown`;
`deadlineExceeded` is `context.DeadlineExceeded`; everything else is
represented by its message. -/
inductive GoErr where
  | errServerClosed
  | deadlineExceeded
  | other (msg : String)
deriving DecidableEq, Repr

/-- A Go `error`: `none` is Go's `nil`. -/
abbrev GoError := Option GoErr

/-- A `net.Listener`, opaque to this package: it is only handed through to
`s.Serve` / `s.ServeTLS`. -/
structure Listener where
  id : Nat
deriving DecidableEq, Repr

/-- A Go `context.Context`, reduced to what this package observes:
the instant its `Done()` channel closes (`none` = never) and its deadline,
if it has one. -/
structure Context where
  doneAt : Option Int
  deadline : Option Int
deriving DecidableEq, Repr

/-- `context.Background()`: never done, no deadline. -/
def Context.background : Context := { doneAt := none, deadline := none }

/-- `context.WithTimeout(parent, d)` called at absolute instant `now`:
the child's deadline is `now + d` (capped by the parent's deadline, if any),
its `Done()` fires when the deadline is reached — immediately, if the
deadline is already in the past — or when the parent fires, whichever is
first. -/
def withTimeout (parent : Context) (now : Int) (d : Int) : Context :=
  let dl : Int :=
    match parent.deadline with
    | none => now + d
    | some pd => min pd (now + d)
  let fire : Int := max dl now
  let fireAt : Int :=
    match parent.doneAt with
    | none => fire
    | some pa => min pa fire
  { doneAt := some fireAt, deadline := some dl }

/-- The `*http.Server` handle, as the oracle of its observable behaviour:
the terminal error each accept method would return, and the result of
`Shutdown` as a function of the context it is given. -/
structure Server where
  listenAndServe : GoError
  listenAndServeTLS : String → String → GoError
  serve : Listener → GoError
  serveTLS : Listener → String → String → GoError
  shutdown : Context → GoError

/-- The scheduler facts of one invocation: the absolute instant at which the
launched accept call returns its terminal error (`none` = it never returns),
and the pseudo-random choice Go's `select` makes when both of its cases are
ready simultaneously (`true` = receive from the result channel, `false` =
`ctx.Done()`). -/
structure Sched where
  acceptReturnsAt : Option Int
  tieChoice : Bool
deriving DecidableEq, Repr

/-- Everything observable about one invocation of a runner: its return value
(`none` = the function never returns), whether and with which context
`s.Shutdown` was invoked, and whether the producer goroutine stays blocked
forever on its channel send. -/
structure RunReport where
  ret : Option GoError
  shutdownCalled : Bool
  shutdownCtx : Option Context
  producerBlocksForever : Bool
deriving DecidableEq, Repr

/-- Report of the `select` resolving on `case err = <-serverErr`: return the
accept loop's error verbatim; `Shutdown` is never invoked, and the producer's
send has been consumed (buffered or rendezvoused), so it does not block. -/
def acceptCaseReport (acceptResult : GoError) : RunReport :=
  { ret := some acceptResult
    shutdownCalled := false
    shutdownCtx := none
    producerBlocksForever := false }

/-- Report of the `select` resolving on `case <-ctx.Done()` at instant
`tRes`: derive `context.WithTimeout(context.Background(), timeout)` and
return `s.Shutdown` of it.  The result channel is never read on this path,
so with an unbuffered channel (`chanCap = 0`) the producer goroutine blocks
forever on its send as soon as the accept call returns
(`acceptEverReturns`); with capacity 1 the send completes immediately. -/
def ctxCaseReport (chanCap : Nat) (s : Server) (timeout : Int) (tRes : Int)
    (acceptEverReturns : Bool) : RunReport :=
  let sctx := withTimeout Context.background tRes timeout
  { ret := some (s.shutdown sctx)
    shutdownCalled := true
    shutdownCtx := some sctx
    producerBlocksForever := chanCap == 0 && acceptEverReturns }

/-- The `select` block shared verbatim by every runner in the package:
race `<-ctx.Done()` against `err = <-serverErr`.  A case whose event instant
lies before the invocation instant `t0` is ready from the start, hence the
effective readiness instant of each case is `max t0 _`.  The earlier-ready
case wins; a simultaneous tie is resolved by the runtime's pseudo-random
choice `sched.tieChoice`; if neither case ever becomes ready the `select`
blocks forever. -/
def selectRace (chanCap : Nat) (ctx : Context) (s : Server) (timeout : Int)
    (acceptResult : GoError) (sched : Sched) (t0 : Int) : RunReport :=
  match sched.acceptReturnsAt, ctx.doneAt with
  | none, none =>
      { ret := none
        shutdownCalled := false
        shutdownCtx := none
        producerBlocksForever := false }
  | some _, none => acceptCaseReport acceptResult
  | none, some tc => ctxCaseReport chanCap s timeout (max t0 tc) false
  | some ta, some tc =>
      if max t0 ta < max t0 tc then acceptCaseReport acceptResult
      else if max t0 tc < max t0 ta then ctxCaseReport chanCap s timeout (max t0 tc) true
      else if sched.tieChoice then acceptCaseReport acceptResult
      else ctxCaseReport chanCap s timeout (max t0 tc) true

/-- `x` becomes ready strictly before `y` (with invocation instant `t0`):
the condition under which Go's `select` deterministically picks `x`'s case. -/
def firstStrictly (t0 : Int) (x y : Option Int) : Bool :=
  match x, y with
  | some tx, some ty => decide (max t0 tx < max t0 ty)
  | some _, none => true
  | none, _ => false

/-- Both instants are defined and effectively simultaneous as seen by the
`select` at invocation instant `t0`. -/
def simultaneousAt (t0 : Int) (x y : Option Int) : Bool :=
  match x, y with
  | some tx, some ty => decide (max t0 tx = max t0 ty)
  | _, _ => false

/-- The event has already happened at invocation instant `t0`. -/
def alreadyAt (t0 : Int) : Option Int → Bool
  | some t => decide (t ≤ t0)
  | none => false

/-- The event has not happened yet at invocation instant `t0`
(`none`: it never will). -/
def notYetAt (t0 : Int) : Option Int → Bool
  | some t => decide (t0 < t)
  | none => true

namespace SrcMain

/-! Embedding of `src/serverctx.go`.  Its `RunTLS` allocates the result
channel with `make(chan error)` — capacity 0. -/

/-- Body of the goroutine launched by `RunTLS` (`serverctx.go`): call
`s.ListenAndServeTLS(certFile, keyFile)` if both credentials are non-empty,
otherwise `s.ListenAndServe()`, and send the terminal error. -/
def runAcceptLoop (s : Server) (certFile keyFile : String) : GoError :=
  if certFile ≠ "" ∧ keyFile ≠ "" then s.listenAndServeTLS certFile keyFile
  else s.listenAndServe

/-- `RunTLS` from `serverctx.go`: result channel `make(chan error)`
(capacity 0), accept loop `runAcceptLoop`, then the shared `select`. -/
def RunTLS (ctx : Context) (s : Server) (timeout : Int)
    (certFile keyFile : String) (sched : Sched) (t0 : Int) : RunReport :=
  selectRace 0 ctx s timeout (runAcceptLoop s certFile keyFile) sched t0

/-- `Run` from `serverctx.go`: `RunTLS(ctx, s, timeout, "", "")`. -/
def Run (ctx : Context) (s : Server) (timeout : Int)
    (sched : Sched) (t0 : Int) : RunReport :=
  RunTLS ctx s timeout "" "" sched t0

end SrcMain

namespace Part000

/-! Embedding of `src/unnamed/part_000`.  All of its runners allocate the
result channel with `make(chan error, 1)` — capacity 1. -/

/-- Body of the goroutine launched by `RunTLS` (`part_000`). -/
def runAcceptLoop (s : Server) (certFile keyFile : String) : GoError :=
  if certFile ≠ "" ∧ keyFile ≠ "" then s.listenAndServeTLS certFile keyFile
  else s.listenAndServe

/-- Body of the goroutine launched by `ServeTLS` (`part_000`): call
`s.ServeTLS(l, certFile, keyFile)` if both credentials are non-empty,
otherwise `s.Serve(l)`. -/
def serveAcceptLoop (s : Server) (l : Listener) (certFile keyFile : String) :
    GoError :=
  if certFile ≠ "" ∧ keyFile ≠ "" then s.serveTLS l certFile keyFile
  else s.serve l

/-- `RunTLS` from `part_000`: result channel `make(chan error, 1)`
(capacity 1), accept loop `runAcceptLoop`, then the shared `select`. -/
def RunTLS (ctx : Context) (s : Server) (timeout : Int)
    (certFile keyFile : String) (sched : Sched) (t0 : Int) : RunReport :=
  selectRace 1 ctx s timeout (runAcceptLoop s certFile keyFile) sched t0

/-- `Run` from `part_000`: `RunTLS(ctx, s, timeout, "", "")`. -/
def Run (ctx : Context) (s : Server) (timeout : Int)
    (sched : Sched) (t0 : Int) : RunReport :=
  RunTLS ctx s timeout "" "" sched t0

/-- `ServeTLS` from `part_000`: result channel `make(chan error, 1)`,
accept loop `serveAcceptLoop` on the caller-supplied listener, then the
shared `select`. -/
def ServeTLS (ctx : Context) (l : Listener) (s : Server) (timeout : Int)
    (certFile keyFile : String) (sched : Sched) (t0 : Int) : RunReport :=
  selectRace 1 ctx s timeout (serveAcceptLoop s l certFile keyFile) sched t0

/-- `Serve` from `part_000`: `ServeTLS(ctx, l, s, timeout, "", "")`. -/
def Serve (ctx : Context) (l : Listener) (s : Server) (timeout : Int)
    (sched : Sched) (t0 : Int) : RunReport :=
  ServeTLS ctx l s timeout "" "" sched t0

end Part000

/-! ## Resolution lemmas for the shared `select` block -/

theorem selectRace_of_acceptFirst (chanCap : Nat) (ctx : Context) (s : Server)
    (timeout : Int) (acceptResult : GoError) (sched : Sched) (t0 : Int)
    (h : firstStrictly t0 sched.acceptReturnsAt ctx.doneAt = true) :
    selectRace chanCap ctx s timeout acceptResult sched t0 =
      acceptCaseReport acceptResult := by
  cases hA : sched.acceptReturnsAt with
  | none => simp [firstStrictly, hA] at h
  | some ta =>
      cases hC : ctx.doneAt with
      | none => simp [selectRace, hA, hC]
      | some tc =>
          simp [firstStrictly, hA, hC] at h
          simp [selectRace, hA, hC, h]

theorem selectRace_of_ctxFirst (chanCap : Nat) (ctx : Context) (s : Server)
    (timeout : Int) (acceptResult : GoError) (sched : Sched) (t0 : Int)
    (tc : Int) (hC : ctx.doneAt = some tc)
    (h : firstStrictly t0 ctx.doneAt sched.acceptReturnsAt = true) :
    selectRace chanCap ctx s timeout acceptResult sched t0 =
      ctxCaseReport chanCap s timeout (max t0 tc)
        sched.acceptReturnsAt.isSome := by
  cases hA : sched.acceptReturnsAt with
  | none => simp [selectRace, hA, hC]
  | some ta =>
      simp [firstStrictly, hA, hC] at h
      have h1 : ¬ (max t0 ta < max t0 tc) := by omega
      simp [selectRace, hA, hC, h1, h]

theorem selectRace_of_tie (chanCap : Nat) (ctx : Context) (s : Server)
    (timeout : Int) (acceptResult : GoError) (sched : Sched) (t0 : Int)
    (ta tc : Int) (hA : sched.acceptReturnsAt = some ta)
    (hC : ctx.doneAt = some tc)
    (h : simultaneousAt t0 sched.acceptReturnsAt ctx.doneAt = true) :
    selectRace chanCap ctx s timeout acceptResult sched t0 =
      (if sched.tieChoice then acceptCaseReport acceptResult
       else ctxCaseReport chanCap s timeout (max t0 tc) true) := by
  simp [simultaneousAt, hA, hC] at h
  have h1 : ¬ (max t0 ta < max t0 tc) := by omega
  have h2 : ¬ (max t0 tc < max t0 ta) := by omega
  simp [selectRace, hA, hC, h1, h2]

theorem firstStrictly_of_alreadyDone (t0 : Int) (x y : Option Int) (tx : Int)
    (hx : x = some tx) (hal : alreadyAt t0 x = true)
    (hna : notYetAt t0 y = true) : firstStrictly t0 x y = true := by
  cases hy : y with
  | none => simp [firstStrictly, hx]
  | some ty =>
      subst hx
      simp [alreadyAt] at hal
      simp [notYetAt, hy] at hna
      simp [firstStrictly, hy]
      omega

/-! ## Concrete servers used by the witnesses -/

/-- A server whose accept methods fail with distinct startup errors and whose
`Shutdown` succeeds. -/
def sampleServer : Server where
  listenAndServe := some (GoErr.other "listen tcp :8080: address already in use")
  listenAndServeTLS := fun _ _ => some (GoErr.other "tls: accept failed")
  serve := fun _ => some (GoErr.other "serve: accept failed")
  serveTLS := fun _ _ _ => some (GoErr.other "serveTLS: accept failed")
  shutdown := fun _ => none

/-- A server whose graceful stop exceeds its deadline. -/
def hungServer : Server where
  listenAndServe := some (GoErr.other "accept loop failed")
  listenAndServeTLS := fun _ _ => some (GoErr.other "tls accept loop failed")
  serve := fun _ => some (GoErr.other "serve loop failed")
  serveTLS := fun _ _ _ => some (GoErr.other "serveTLS loop failed")
  shutdown := fun _ => some GoErr.deadlineExceeded

/-- A server whose accept methods return the `http.ErrServerClosed`
sentinel. -/
def closedServer : Server where
  listenAndServe := some GoErr.errServerClosed
  listenAndServeTLS := fun _ _ => some GoErr.errServerClosed
  serve := fun _ => some GoErr.errServerClosed
  serveTLS := fun _ _ _ => some GoErr.errServerClosed
  shutdown := fun _ => none

/-! ## Claims -/

/-- C1: in every entry point (`Run`/`RunTLS` of `serverctx.go`,
`Run`/`RunTLS`/`Serve`/`ServeTLS` of `part_000`), if the accept loop's
terminal error becomes available strictly before the cancellation context is
done, the function returns that error verbatim and `s.Shutdown` is never
invoked. -/
theorem claim1_accept_first_returns_accept_error (ctx : Context) (s : Server)
    (l : Listener) (timeout : Int) (certFile keyFile : String) (sched : Sched)
    (t0 : Int)
    (h : firstStrictly t0 sched.acceptReturnsAt ctx.doneAt = true) :
    (SrcMain.Run ctx s timeout sched t0).ret =
        some (SrcMain.runAcceptLoop s "" "") ∧
    (SrcMain.Run ctx s timeout sched t0).shutdownCalled = false ∧
    (SrcMain.RunTLS ctx s timeout certFile keyFile sched t0).ret =
        some (SrcMain.runAcceptLoop s certFile keyFile) ∧
    (SrcMain.RunTLS ctx s timeout certFile keyFile sched t0).shutdownCalled =
        false ∧
    (Part000.Run ctx s timeout sched t0).ret =
        some (Part000.runAcceptLoop s "" "") ∧
    (Part000.Run ctx s timeout sched t0).shutdownCalled = false ∧
    (Part000.RunTLS ctx s timeout certFile keyFile sched t0).ret =
        some (Part000.runAcceptLoop s certFile keyFile) ∧
    (Part000.RunTLS ctx s timeout certFile keyFile sched t0).shutdownCalled =
        false ∧
    (Part000.Serve ctx l s timeout sched t0).ret =
        some (Part000.serveAcceptLoop s l "" "") ∧
    (Part000.Serve ctx l s timeout sched t0).shutdownCalled = false ∧
    (Part000.ServeTLS ctx l s timeout certFile keyFile sched t0).ret =
        some (Part000.serveAcceptLoop s l certFile keyFile) ∧
    (Part000.ServeTLS ctx l s timeout certFile keyFile sched t0).shutdownCalled =
        false := by
  refine ⟨?_, ?_, ?_, ?_, ?_, ?_, ?_, ?_, ?_, ?_, ?_, ?_⟩ <;>
    simp [SrcMain.Run, SrcMain.RunTLS, Part000.Run, Part000.RunTLS,
          Part000.Serve, Part000.ServeTLS,
          selectRace_of_acceptFirst _ _ _ _ _ _ _ h, acceptCaseReport]

/-- Witness for C1: accept loop fails at instant 2, context fires at 10. -/
theorem claim1_witness :
    firstStrictly 0 (Sched.mk (some 2) true).acceptReturnsAt
        (Context.mk (some 10) none).doneAt = true ∧
    (SrcMain.Run ⟨some 10, none⟩ sampleServer 5 ⟨some 2, true⟩ 0).ret =
        some (some (GoErr.other "listen tcp :8080: address already in use")) ∧
    (SrcMain.Run ⟨some 10, none⟩ sampleServer 5 ⟨some 2, true⟩ 0).shutdownCalled =
        false :=
  ⟨by decide,
   (claim1_accept_first_returns_accept_error ⟨some 10, none⟩ sampleServer ⟨0⟩ 5
      "c" "k" ⟨some 2, true⟩ 0 (by decide)).1,
   (claim1_accept_first_returns_accept_error ⟨some 10, none⟩ sampleServer ⟨0⟩ 5
      "c" "k" ⟨some 2, true⟩ 0 (by decide)).2.1⟩

/-- C4: in every accept-loop body the TLS accept call is taken exactly when
both `certFile` and `keyFile` are non-empty; a single empty credential falls
back to the plaintext accept call, with no error raised. -/
theorem claim4_credential_gating (s : Server) (l : Listener)
    (certFile keyFile : String) :
    (certFile ≠ "" ∧ keyFile ≠ "" →
      SrcMain.runAcceptLoop s certFile keyFile =
          s.listenAndServeTLS certFile keyFile ∧
      Part000.runAcceptLoop s certFile keyFile =
          s.listenAndServeTLS certFile keyFile ∧
      Part000.serveAcceptLoop s l certFile keyFile =
          s.serveTLS l certFile keyFile) ∧
    ((certFile = "" ∨ keyFile = "") →
      SrcMain.runAcceptLoop s certFile keyFile = s.listenAndServe ∧
      Part000.runAcceptLoop s certFile keyFile = s.listenAndServe ∧
      Part000.serveAcceptLoop s l certFile keyFile = s.serve l) := by
  constructor
  · intro h
    simp [SrcMain.runAcceptLoop, Part000.runAcceptLoop,
          Part000.serveAcceptLoop, h.1, h.2]
  · intro h
    have h' : ¬ (certFile ≠ "" ∧ keyFile ≠ "") := by tauto
    simp [SrcMain.runAcceptLoop, Part000.runAcceptLoop,
          Part000.serveAcceptLoop, h']

/-- Witness for C4: both credentials present selects TLS; a single missing
credential (either one) selects the plaintext call. -/
theorem claim4_witness :
    SrcMain.runAcceptLoop sampleServer "cert.pem" "key.pem" =
        sampleServer.listenAndServeTLS "cert.pem" "key.pem" ∧
    SrcMain.runAcceptLoop sampleServer "cert.pem" "" =
        sampleServer.listenAndServe ∧
    Part000.serveAcceptLoop sampleServer ⟨0⟩ "" "key.pem" =
        sampleServer.serve ⟨0⟩ :=
  ⟨((claim4_credential_gating sampleServer ⟨0⟩ "cert.pem" "key.pem").1
      (by decide)).1,
   ((claim4_credential_gating sampleServer ⟨0⟩ "cert.pem" "").2
      (by decide)).1,
   ((claim4_credential_gating sampleServer ⟨0⟩ "" "key.pem").2
      (by decide)).2.2⟩

/-- C9: the plaintext entry points are exact reductions of the TLS ones —
`Run` is `RunTLS` with empty credentials and `Serve` is `ServeTLS` with
empty credentials, in both copies of the file; with empty credentials the
accept loop is the plaintext accept call. -/
theorem claim9_plain_is_tls_with_empty_credentials (ctx : Context)
    (s : Server) (l : Listener) (timeout : Int) (sched : Sched) (t0 : Int) :
    SrcMain.Run ctx s timeout sched t0 =
        SrcMain.RunTLS ctx s timeout "" "" sched t0 ∧
    Part000.Run ctx s timeout sched t0 =
        Part000.RunTLS ctx s timeout "" "" sched t0 ∧
    Part000.Serve ctx l s timeout sched t0 =
        Part000.ServeTLS ctx l s timeout "" "" sched t0 ∧
    SrcMain.runAcceptLoop s "" "" = s.listenAndServe ∧
    Part000.runAcceptLoop s "" "" = s.listenAndServe ∧
    Part000.serveAcceptLoop s l "" "" = s.serve l := by
  refine ⟨rfl, rfl, rfl, ?_, ?_, ?_⟩ <;>
    simp [SrcMain.runAcceptLoop, Part000.runAcceptLoop,
          Part000.serveAcceptLoop]

/-- C3 fails on `src/serverctx.go`: its `RunTLS` allocates the result channel
with `make(chan error)` — capacity 0, not 1 — so when the shutdown path wins
the race the producer goroutine blocks forever on its send (here: context
done at 0, accept loop returns at 3).  The duplicate copy in `part_000`
allocates `make(chan error, 1)` and its producer never blocks. -/
theorem claim3_unbuffered_channel_in_src_main :
    (SrcMain.RunTLS ⟨some 0, none⟩ sampleServer 5 "" "" ⟨some 3, false⟩
        0).shutdownCalled = true ∧
    (SrcMain.RunTLS ⟨some 0, none⟩ sampleServer 5 "" "" ⟨some 3, false⟩
        0).producerBlocksForever = true ∧
    (Part000.RunTLS ⟨some 0, none⟩ sampleServer 5 "" "" ⟨some 3, false⟩
        0).producerBlocksForever = false ∧
    (Part000.ServeTLS ⟨some 0, none⟩ ⟨0⟩ sampleServer 5 "" "" ⟨some 3, false⟩
        0).producerBlocksForever = false := by
  decide

/-- C2: in every entry point, if the cancellation context is done strictly
before the accept loop's result becomes available (in particular when the
accept call never returns), the returned value is exactly the result of the
bounded `s.Shutdown` call; the accept loop's eventual result is discarded —
the returned value is unchanged under arbitrary replacement of the accept
behaviours. -/
theorem claim2_ctx_first_returns_shutdown_result (ctx : Context) (s : Server)
    (l : Listener) (timeout : Int) (certFile keyFile : String) (sched : Sched)
    (t0 : Int) (tc : Int) (hc : ctx.doneAt = some tc)
    (h : firstStrictly t0 ctx.doneAt sched.acceptReturnsAt = true) :
    (SrcMain.Run ctx s timeout sched t0).ret =
        some (s.shutdown (withTimeout Context.background (max t0 tc) timeout)) ∧
    (SrcMain.RunTLS ctx s timeout certFile keyFile sched t0).ret =
        some (s.shutdown (withTimeout Context.background (max t0 tc) timeout)) ∧
    (Part000.Run ctx s timeout sched t0).ret =
        some (s.shutdown (withTimeout Context.background (max t0 tc) timeout)) ∧
    (Part000.RunTLS ctx s timeout certFile keyFile sched t0).ret =
        some (s.shutdown (withTimeout Context.background (max t0 tc) timeout)) ∧
    (Part000.Serve ctx l s timeout sched t0).ret =
        some (s.shutdown (withTimeout Context.background (max t0 tc) timeout)) ∧
    (Part000.ServeTLS ctx l s timeout certFile keyFile sched t0).ret =
        some (s.shutdown (withTimeout Context.background (max t0 tc) timeout)) ∧
    (∀ s' : Server, s'.shutdown = s.shutdown →
      (Part000.RunTLS ctx s' timeout certFile keyFile sched t0).ret =
          (Part000.RunTLS ctx s timeout certFile keyFile sched t0).ret) ∧
    (∀ s' : Server, s'.shutdown = s.shutdown →
      (Part000.ServeTLS ctx l s' timeout certFile keyFile sched t0).ret =
          (Part000.ServeTLS ctx l s timeout certFile keyFile sched t0).ret) := by
  have main : ∀ (cap : Nat) (sv : Server) (aR : GoError),
      (selectRace cap ctx sv timeout aR sched t0).ret =
        some (sv.shutdown (withTimeout Context.background (max t0 tc)
          timeout)) := by
    intro cap sv aR
    rw [selectRace_of_ctxFirst cap ctx sv timeout aR sched t0 tc hc h]
    rfl
  refine ⟨main 0 s _, main 0 s _, main 1 s _, main 1 s _, main 1 s _,
      main 1 s _, fun s' hsd => ?_, fun s' hsd => ?_⟩
  · simp only [Part000.RunTLS]
    rw [main 1 s' (Part000.runAcceptLoop s' certFile keyFile),
        main 1 s (Part000.runAcceptLoop s certFile keyFile), hsd]
  · simp only [Part000.ServeTLS]
    rw [main 1 s' (Part000.serveAcceptLoop s' l certFile keyFile),
        main 1 s (Part000.serveAcceptLoop s l certFile keyFile), hsd]

/-- Witness for C2: context fires at 1, accept loop would only return at 9;
`Shutdown` exceeds its deadline, and that error is what the caller gets. -/
theorem claim2_witness :
    firstStrictly 0 (Context.mk (some 1) none).doneAt
        (Sched.mk (some 9) true).acceptReturnsAt = true ∧
    (Part000.ServeTLS ⟨some 1, none⟩ ⟨0⟩ hungServer 5 "" "" ⟨some 9, true⟩
        0).ret = some (some GoErr.deadlineExceeded) :=
  ⟨by decide,
   (claim2_ctx_first_returns_shutdown_result ⟨some 1, none⟩ hungServer ⟨0⟩ 5
      "" "" ⟨some 9, true⟩ 0 1 rfl (by decide)).2.2.2.2.2.1⟩

/-- C6: if the cancellation context is already done at invocation time and no
accept-loop result is available yet, every entry point resolves via the
graceful-stop path: it calls `s.Shutdown`, returns its result, and never
hangs. -/
theorem claim6_already_cancelled_resolves_gracefully (ctx : Context)
    (s : Server) (l : Listener) (timeout : Int) (certFile keyFile : String)
    (sched : Sched) (t0 : Int) (tc : Int) (hc : ctx.doneAt = some tc)
    (hal : alreadyAt t0 ctx.doneAt = true)
    (hna : notYetAt t0 sched.acceptReturnsAt = true) :
    (SrcMain.Run ctx s timeout sched t0).ret.isSome = true ∧
    (SrcMain.Run ctx s timeout sched t0).shutdownCalled = true ∧
    (SrcMain.RunTLS ctx s timeout certFile keyFile sched t0).ret.isSome =
        true ∧
    (SrcMain.RunTLS ctx s timeout certFile keyFile sched t0).shutdownCalled =
        true ∧
    (Part000.Run ctx s timeout sched t0).ret.isSome = true ∧
    (Part000.Run ctx s timeout sched t0).shutdownCalled = true ∧
    (Part000.RunTLS ctx s timeout certFile keyFile sched t0).ret.isSome =
        true ∧
    (Part000.RunTLS ctx s timeout certFile keyFile sched t0).shutdownCalled =
        true ∧
    (Part000.Serve ctx l s timeout sched t0).ret.isSome = true ∧
    (Part000.Serve ctx l s timeout sched t0).shutdownCalled = true ∧
    (Part000.ServeTLS ctx l s timeout certFile keyFile sched t0).ret.isSome =
        true ∧
    (Part000.ServeTLS ctx l s timeout certFile keyFile sched
        t0).shutdownCalled = true := by
  have h := firstStrictly_of_alreadyDone t0 ctx.doneAt sched.acceptReturnsAt
    tc hc hal hna
  refine ⟨?_, ?_, ?_, ?_, ?_, ?_, ?_, ?_, ?_, ?_, ?_, ?_⟩ <;>
    simp [SrcMain.Run, SrcMain.RunTLS, Part000.Run, Part000.RunTLS,
          Part000.Serve, Part000.ServeTLS,
          selectRace_of_ctxFirst _ _ _ _ _ _ _ _ hc h, ctxCaseReport]

/-- Witness for C6: the context fired at instant −4, before the invocation at
instant 0, and the accept loop never returns. -/
theorem claim6_witness :
    (Context.mk (some (-4)) none).doneAt = some (-4) ∧
    alreadyAt 0 (some (-4)) = true ∧ notYetAt 0 (none : Option Int) = true ∧
    (SrcMain.Run ⟨some (-4), none⟩ sampleServer 5 ⟨none, true⟩ 0).ret.isSome =
        true ∧
    (SrcMain.Run ⟨some (-4), none⟩ sampleServer 5 ⟨none, true⟩
        0).shutdownCalled = true :=
  ⟨rfl, by decide, by decide,
   (claim6_already_cancelled_resolves_gracefully ⟨some (-4), none⟩
      sampleServer ⟨0⟩ 5 "c" "k" ⟨none, true⟩ 0 (-4) rfl (by decide)
      (by decide)).1,
   (claim6_already_cancelled_resolves_gracefully ⟨some (-4), none⟩
      sampleServer ⟨0⟩ 5 "c" "k" ⟨none, true⟩ 0 (-4) rfl (by decide)
      (by decide)).2.1⟩

/-- C7: on the cancellation path the context handed to `s.Shutdown` is
freshly derived from `context.Background()` at the instant the race resolves,
its deadline is exactly that instant plus the caller-supplied `timeout`
(passed through unchanged, including `timeout = 0`), and it is independent of
the caller's context beyond the instant the latter fired. -/
theorem claim7_fresh_bounded_shutdown_context (ctx : Context) (s : Server)
    (l : Listener) (timeout : Int) (certFile keyFile : String) (sched : Sched)
    (t0 : Int) (tc : Int) (hc : ctx.doneAt = some tc)
    (h : firstStrictly t0 ctx.doneAt sched.acceptReturnsAt = true) :
    (SrcMain.RunTLS ctx s timeout certFile keyFile sched t0).shutdownCtx =
        some (withTimeout Context.background (max t0 tc) timeout) ∧
    (Part000.RunTLS ctx s timeout certFile keyFile sched t0).shutdownCtx =
        some (withTimeout Context.background (max t0 tc) timeout) ∧
    (Part000.ServeTLS ctx l s timeout certFile keyFile sched t0).shutdownCtx =
        some (withTimeout Context.background (max t0 tc) timeout) ∧
    (withTimeout Context.background (max t0 tc) timeout).deadline =
        some (max t0 tc + timeout) ∧
    (0 ≤ timeout →
      (withTimeout Context.background (max t0 tc) timeout).doneAt =
          some (max t0 tc + timeout)) ∧
    (∀ ctx' : Context, ctx'.doneAt = ctx.doneAt →
      (SrcMain.RunTLS ctx' s timeout certFile keyFile sched t0).shutdownCtx =
          (SrcMain.RunTLS ctx s timeout certFile keyFile sched
            t0).shutdownCtx) := by
  have main : ∀ (cap : Nat) (cx : Context) (aR : GoError),
      cx.doneAt = some tc →
      (selectRace cap cx s timeout aR sched t0).shutdownCtx =
        some (withTimeout Context.background (max t0 tc) timeout) := by
    intro cap cx aR hcx
    have h' : firstStrictly t0 cx.doneAt sched.acceptReturnsAt = true := by
      rw [hcx]
      rw [hc] at h
      exact h
    rw [selectRace_of_ctxFirst cap cx s timeout aR sched t0 tc hcx h']
    rfl
  refine ⟨main 0 ctx _ hc, main 1 ctx _ hc, main 1 ctx _ hc, rfl, ?_,
      fun ctx' hcx' => ?_⟩
  · intro hts
    simp only [withTimeout, Context.background]
    congr 1
    omega
  · simp only [SrcMain.RunTLS]
    rw [main 0 ctx' (SrcMain.runAcceptLoop s certFile keyFile)
          (hcx'.trans hc),
        main 0 ctx (SrcMain.runAcceptLoop s certFile keyFile) hc]

/-- Witness for C7: timeout 0 is passed through: the derived context's
deadline is the resolution instant itself. -/
theorem claim7_witness :
    firstStrictly 0 (Context.mk (some 3) (some 99)).doneAt
        (Sched.mk none true).acceptReturnsAt = true ∧
    (SrcMain.RunTLS ⟨some 3, some 99⟩ sampleServer 0 "" "" ⟨none, true⟩
        0).shutdownCtx = some (withTimeout Context.background 3 0) ∧
    (withTimeout Context.background (max 0 3) 0).deadline = some 3 :=
  ⟨by decide,
   (claim7_fresh_bounded_shutdown_context ⟨some 3, some 99⟩ sampleServer ⟨0⟩ 0
      "" "" ⟨none, true⟩ 0 3 rfl (by decide)).1,
   by simpa using (claim7_fresh_bounded_shutdown_context ⟨some 3, some 99⟩
      sampleServer ⟨0⟩ 0 "" "" ⟨none, true⟩ 0 3 rfl (by decide)).2.2.2.1⟩

/-- C10: no entry point validates `timeout`: a negative duration is passed
straight into the shutdown-context construction, yielding an
already-expired context (deadline before the instant it was created, `Done`
already closed), and the returned value is still whatever `s.Shutdown`
yields — the runner raises no error of its own. -/
theorem claim10_timeout_not_validated (ctx : Context) (s : Server)
    (l : Listener) (timeout : Int) (certFile keyFile : String) (sched : Sched)
    (t0 : Int) (tc : Int) (hc : ctx.doneAt = some tc)
    (h : firstStrictly t0 ctx.doneAt sched.acceptReturnsAt = true)
    (ht : timeout ≤ 0) :
    (SrcMain.RunTLS ctx s timeout certFile keyFile sched t0).ret =
        some (s.shutdown (withTimeout Context.background (max t0 tc)
          timeout)) ∧
    (Part000.RunTLS ctx s timeout certFile keyFile sched t0).ret =
        some (s.shutdown (withTimeout Context.background (max t0 tc)
          timeout)) ∧
    (Part000.ServeTLS ctx l s timeout certFile keyFile sched t0).ret =
        some (s.shutdown (withTimeout Context.background (max t0 tc)
          timeout)) ∧
    (withTimeout Context.background (max t0 tc) timeout).deadline =
        some (max t0 tc + timeout) ∧
    max t0 tc + timeout ≤ max t0 tc ∧
    (withTimeout Context.background (max t0 tc) timeout).doneAt =
        some (max t0 tc) := by
  have main : ∀ (cap : Nat) (aR : GoError),
      (selectRace cap ctx s timeout aR sched t0).ret =
        some (s.shutdown (withTimeout Context.background (max t0 tc)
          timeout)) := by
    intro cap aR
    rw [selectRace_of_ctxFirst cap ctx s timeout aR sched t0 tc hc h]
    rfl
  refine ⟨main 0 _, main 1 _, main 1 _, rfl, by omega, ?_⟩
  simp only [withTimeout, Context.background]
  congr 1
  omega

/-- Witness for C10: `timeout = -7` with the context fired at instant 2. -/
theorem claim10_witness :
    firstStrictly 0 (Context.mk (some 2) none).doneAt
        (Sched.mk (some 11) true).acceptReturnsAt = true ∧ (-7 : Int) ≤ 0 ∧
    (Part000.ServeTLS ⟨some 2, none⟩ ⟨0⟩ sampleServer (-7) "" ""
        ⟨some 11, true⟩ 0).ret =
      some (sampleServer.shutdown (withTimeout Context.background 2 (-7))) ∧
    (withTimeout Context.background (max 0 2) (-7)).doneAt = some 2 :=
  ⟨by decide, by decide,
   by simpa using (claim10_timeout_not_validated ⟨some 2, none⟩ sampleServer
      ⟨0⟩ (-7) "" "" ⟨some 11, true⟩ 0 2 rfl (by decide) (by decide)).2.2.1,
   (claim10_timeout_not_validated ⟨some 2, none⟩ sampleServer
      ⟨0⟩ (-7) "" "" ⟨some 11, true⟩ 0 2 rfl (by decide) (by decide)).2.2.2.2.2⟩

/-- C5 as stated is false: when the context has fired and the accept result
is simultaneously available (here both at instant 0), Go's `select` chooses
pseudo-randomly among the ready cases; with the runtime choosing the
`ctx.Done()` case, the runner takes the shutdown path and does not return the
already-available accept-loop result. -/
theorem claim5_counterexample :
    simultaneousAt 0 (Sched.mk (some 0) false).acceptReturnsAt
        (Context.mk (some 0) none).doneAt = true ∧
    (Part000.RunTLS ⟨some 0, none⟩ hungServer 5 "" "" ⟨some 0, false⟩ 0).ret ≠
        some (Part000.runAcceptLoop hungServer "" "") ∧
    (Part000.RunTLS ⟨some 0, none⟩ hungServer 5 "" "" ⟨some 0, false⟩
        0).shutdownCalled = true ∧
    (Part000.RunTLS ⟨some 0, none⟩ hungServer 5 "" "" ⟨some 0, false⟩ 0).ret =
        some (some GoErr.deadlineExceeded) := by
  decide

/-- C5 amended: when the cancellation signal and the buffered accept result
are simultaneously ready, the `select` resolves by the runtime's
pseudo-random choice — the already-available accept result is eligible and
wins under one choice (it is not starved), but under the other choice the
shutdown path is taken instead. -/
theorem claim5_amended_tie_is_scheduler_choice (ctx : Context) (s : Server)
    (l : Listener) (timeout : Int) (certFile keyFile : String) (sched : Sched)
    (t0 : Int) (ta tc : Int) (hA : sched.acceptReturnsAt = some ta)
    (hC : ctx.doneAt = some tc)
    (h : simultaneousAt t0 sched.acceptReturnsAt ctx.doneAt = true) :
    (sched.tieChoice = true →
      (SrcMain.RunTLS ctx s timeout certFile keyFile sched t0).ret =
          some (SrcMain.runAcceptLoop s certFile keyFile) ∧
      (SrcMain.RunTLS ctx s timeout certFile keyFile sched t0).shutdownCalled =
          false ∧
      (Part000.ServeTLS ctx l s timeout certFile keyFile sched t0).ret =
          some (Part000.serveAcceptLoop s l certFile keyFile) ∧
      (Part000.ServeTLS ctx l s timeout certFile keyFile sched
          t0).shutdownCalled = false) ∧
    (sched.tieChoice = false →
      (SrcMain.RunTLS ctx s timeout certFile keyFile sched t0).ret =
          some (s.shutdown (withTimeout Context.background (max t0 tc)
            timeout)) ∧
      (SrcMain.RunTLS ctx s timeout certFile keyFile sched t0).shutdownCalled =
          true ∧
      (Part000.ServeTLS ctx l s timeout certFile keyFile sched t0).ret =
          some (s.shutdown (withTimeout Context.background (max t0 tc)
            timeout)) ∧
      (Part000.ServeTLS ctx l s timeout certFile keyFile sched
          t0).shutdownCalled = true) := by
  have k := fun (cap : Nat) (aR : GoError) =>
    selectRace_of_tie cap ctx s timeout aR sched t0 ta tc hA hC h
  constructor
  · intro htie
    refine ⟨?_, ?_, ?_, ?_⟩ <;>
      simp [SrcMain.RunTLS, Part000.ServeTLS, k, htie, acceptCaseReport]
  · intro htie
    refine ⟨?_, ?_, ?_, ?_⟩ <;>
      simp [SrcMain.RunTLS, Part000.ServeTLS, k, htie, ctxCaseReport]

/-- Witness for the amended C5: with the runtime choosing the channel case,
the already-available accept result is returned and no shutdown happens. -/
theorem claim5_witness :
    simultaneousAt 0 (Sched.mk (some 0) true).acceptReturnsAt
        (Context.mk (some 0) none).doneAt = true ∧
    (SrcMain.RunTLS ⟨some 0, none⟩ hungServer 5 "" "" ⟨some 0, true⟩ 0).ret =
        some (some (GoErr.other "accept loop failed")) ∧
    (SrcMain.RunTLS ⟨some 0, none⟩ hungServer 5 "" "" ⟨some 0, true⟩
        0).shutdownCalled = false :=
  ⟨by decide,
   ((claim5_amended_tie_is_scheduler_choice ⟨some 0, none⟩ hungServer ⟨0⟩ 5
      "" "" ⟨some 0, true⟩ 0 0 0 rfl rfl (by decide)).1 rfl).1,
   ((claim5_amended_tie_is_scheduler_choice ⟨some 0, none⟩ hungServer ⟨0⟩ 5
      "" "" ⟨some 0, true⟩ 0 0 0 rfl rfl (by decide)).1 rfl).2.1⟩

/-- C8: when the accept loop yields the `http.ErrServerClosed` sentinel and
that result wins the race, every runner returns the sentinel exactly like a
real failure — it is never filtered out or converted to Go's `nil`. -/
theorem claim8_sentinel_propagated_verbatim (ctx : Context) (s : Server)
    (l : Listener) (timeout : Int) (certFile keyFile : String) (sched : Sched)
    (t0 : Int)
    (h : firstStrictly t0 sched.acceptReturnsAt ctx.doneAt = true)
    (h1 : SrcMain.runAcceptLoop s certFile keyFile =
        some GoErr.errServerClosed)
    (h2 : Part000.runAcceptLoop s certFile keyFile =
        some GoErr.errServerClosed)
    (h3 : Part000.serveAcceptLoop s l certFile keyFile =
        some GoErr.errServerClosed) :
    (SrcMain.RunTLS ctx s timeout certFile keyFile sched t0).ret =
        some (some GoErr.errServerClosed) ∧
    (SrcMain.RunTLS ctx s timeout certFile keyFile sched t0).ret ≠
        some none ∧
    (Part000.RunTLS ctx s timeout certFile keyFile sched t0).ret =
        some (some GoErr.errServerClosed) ∧
    (Part000.RunTLS ctx s timeout certFile keyFile sched t0).ret ≠
        some none ∧
    (Part000.ServeTLS ctx l s timeout certFile keyFile sched t0).ret =
        some (some GoErr.errServerClosed) ∧
    (Part000.ServeTLS ctx l s timeout certFile keyFile sched t0).ret ≠
        some none := by
  refine ⟨?_, ?_, ?_, ?_, ?_, ?_⟩ <;>
    simp [SrcMain.RunTLS, Part000.RunTLS, Part000.ServeTLS,
          selectRace_of_acceptFirst _ _ _ _ _ _ _ h, acceptCaseReport,
          h1, h2, h3]

/-- Witness for C8: a server whose accept loop ends with
`http.ErrServerClosed` at instant 1, before the context fires at 8. -/
theorem claim8_witness :
    firstStrictly 0 (Sched.mk (some 1) true).acceptReturnsAt
        (Context.mk (some 8) none).doneAt = true ∧
    (Part000.ServeTLS ⟨some 8, none⟩ ⟨0⟩ closedServer 5 "" "" ⟨some 1, true⟩
        0).ret = some (some GoErr.errServerClosed) :=
  ⟨by decide,
   (claim8_sentinel_propagated_verbatim ⟨some 8, none⟩ closedServer ⟨0⟩ 5
      "" "" ⟨some 1, true⟩ 0 (by decide) (by decide) (by decide)
      (by decide)).2.2.2.2.1⟩
